import Mathlib

/-
Verification of the generic model-to-model translation engine in
other/franca/rule_translator.py and of the Franca-to-IFEX conversion helpers in
other/franca/franca_to_ifex.py.

The Python code is shallowly embedded: Python runtime values become the
inductive type Value, exceptions become the error side of Except, the
insertion-ordered Python dict becomes an association list, and the
unbounded recursion of the interpreter becomes recursion on an explicit
fuel parameter (running out of fuel corresponds to a Python RecursionError).
-/

namespace RuleTranslator

/-- Python exceptions that the embedded code can raise. -/
inductive PyError where
  | typeError (msg : String)
  | attributeError (name : String)
  | unboundLocalError (name : String)
  | recursionError
deriving Repr, DecidableEq

/-- A Python runtime value as seen by rule_translator.py: the builtin scalars,
builtin list and dict, collections.OrderedDict, and instances of AST
(dataclass) classes, which carry their class name and their insertion-ordered
attribute dictionary (the contents of vars(obj)). -/
inductive Value where
  | vNone
  | vBool (b : Bool)
  | vInt (n : Int)
  | vStr (s : String)
  | vList (items : List Value)
  | vDict (entries : List (String × Value))
  | vOrderedDict (entries : List (String × Value))
  | vObj (className : String) (attrs : List (String × Value))

/-- The module that the class of a value lives in.  Builtin scalars, list and
dict live in module builtins; collections.OrderedDict lives in collections;
the AST dataclasses live in user model modules such as pyfranca.ast or
ifex.model.ifex_ast, never in builtins. -/
def pyModuleName : Value → String
  | .vOrderedDict _ => "collections"
  | .vObj _ _ => "ast_model"
  | _ => "builtins"

/-- rule_translator.py line 142: is_builtin checks whether the module of the
class of x is builtins. -/
def is_builtin (x : Value) : Bool :=
  pyModuleName x == "builtins"

/-- The name of the Python class of a value (input_obj.__class__). -/
def pyClassName : Value → String
  | .vNone => "NoneType"
  | .vBool _ => "bool"
  | .vInt _ => "int"
  | .vStr _ => "str"
  | .vList _ => "list"
  | .vDict _ => "dict"
  | .vOrderedDict _ => "OrderedDict"
  | .vObj c _ => c

/-- The Python test (x is None). -/
def isNone : Value → Bool
  | .vNone => true
  | _ => false

/-- Whether a value is a builtin list (the Python isinstance(v, list) test). -/
def Value.isList : Value → Bool
  | .vList _ => true
  | _ => false

/-- Whether a value is a collections.OrderedDict. -/
def Value.isODict : Value → Bool
  | .vOrderedDict _ => true
  | _ => false

/-- The items of a list value, and the empty list on any other value. -/
def Value.listItems : Value → List Value
  | .vList items => items
  | _ => []

/-- Lookup in an insertion-ordered Python dict. -/
def dictLookup : List (String × Value) → String → Option Value
  | [], _ => none
  | (k, v) :: rest, key => if k == key then some v else dictLookup rest key

/-- Assignment d[key] = v on an insertion-ordered Python dict: an existing key
keeps its position, a new key is appended at the end. -/
def dictSet : List (String × Value) → String → Value → List (String × Value)
  | [], key, v => [(key, v)]
  | (k, w) :: rest, key, v =>
    if k == key then (key, v) :: rest else (k, w) :: dictSet rest key v

/-- Python getattr(obj, name): reads an attribute of an AST object, raising
AttributeError when the attribute does not exist (builtins carry no model
attributes here). -/
def getattr (input_obj : Value) (name : String) : Except PyError Value :=
  match input_obj with
  | .vObj _ attrs =>
    match dictLookup attrs name with
    | some v => Except.ok v
    | none => Except.error (PyError.attributeError name)
  | _ => Except.error (PyError.attributeError name)

/-- Python vars(obj): the attribute dictionary of an object; raises TypeError
on values without a __dict__. -/
def objVars : Value → Except PyError (List (String × Value))
  | .vObj _ attrs => Except.ok attrs
  | _ => Except.error (PyError.typeError "vars() argument must have __dict__ attribute")

/-- The target side of a type_map key: a dataclass with its name and the list
of field names in __dataclass_fields__, in declaration order. -/
structure TargetClass where
  name : String
  fields : List String

/-- The source component of a mapping entry: an attribute name, or a
Constant(const_value) marker whose literal value is written unconditionally. -/
inductive SourceSpec where
  | attr (name : String)
  | constant (const_value : Value)

/-- The target component of a mapping entry: a target attribute name, the
ignore value None, or the Unsupported marker class. -/
inductive TargetSpec where
  | attr (name : String)
  | ignore
  | unsupported

/-- One element of the rule list of a type_map entry, after eval_mapping:
either a Preparation hook (a side-effecting callable, invoked purely for its
effect on process-wide state that no transformed value depends on here), or an
attribute mapping with an optional transform function. -/
inductive MapEntry where
  | preparation
  | mapping (src : SourceSpec) (tgt : TargetSpec) (fn : Option (Value → Value))

/-- The translation definition: the global attribute rename map (a renamed
target name, or None to ignore) and the type_map, an insertion-ordered dict
from (from_class, to_class) pairs to rule lists. -/
structure MappingTable where
  global_attribute_map : List (String × Option String)
  type_map : List ((String × TargetClass) × List MapEntry)

/-- rule_translator.py lines 165-181, set_attr: if the key is new, assign; if
the current value is a list, append the new value as one element; otherwise
the code reaches the statement at line 177, which concatenates two adjacent
string literals into a single argument for the two-parameter function _log and
therefore raises TypeError before returning (the preceding _log call at line
175 is a no-op because the body of _log is pass). -/
def set_attr (attrs_dict : List (String × Value)) (attr_key : String)
    (attr_value : Value) : Except PyError (List (String × Value)) :=
  match dictLookup attrs_dict attr_key with
  | some value =>
    match value with
    | .vList items =>
      Except.ok (dictSet attrs_dict attr_key (.vList (items ++ [attr_value])))
    | _ =>
      Except.error (PyError.typeError
        "_log() missing 1 required positional argument: string")
  | none => Except.ok (attrs_dict ++ [(attr_key, attr_value)])

/-- The Python membership test (attr in done_attrs) for a string attr: the set
done_attrs holds attribute name strings and, for Constant entries, the
Constant marker objects, which never compare equal to a string. -/
def doneHas (done_attrs : List SourceSpec) (name : String) : Bool :=
  done_attrs.any fun s =>
    match s with
    | .attr a => a == name
    | .constant _ => false

/-- Membership test (attr in global_attribute_map). -/
def gmapMem : List (String × Option String) → String → Bool
  | [], _ => false
  | (k, _) :: rest, key => k == key || gmapMem rest key

/-- global_attribute_map.get(attr): the stored value, which is itself None for
attributes globally mapped to the ignore value. -/
def gmapGet : List (String × Option String) → String → Option String
  | [], _ => none
  | (k, v) :: rest, key => if k == key then v else gmapGet rest key

/-- The list comprehension shared by both container branches of
transform_value_common: transform every element, propagating exceptions.
The parameter tf0 is the recursive transform entry point. -/
def transformItemsF (tf0 : Value → Except PyError Value) :
    List Value → Except PyError (List Value)
  | [] => Except.ok []
  | item :: rest => do
    let t ← tf0 item
    let ts ← transformItemsF tf0 rest
    pure (t :: ts)

/-- rule_translator.py lines 202-213, transform_value_common: an OrderedDict
value becomes the list of transformed values in iteration order with the keys
discarded; a list value becomes the list of transformed elements in order; any
other value has the transform function applied directly, with no recursion
into transform. -/
def transform_value_commonF (tf0 : Value → Except PyError Value) (value : Value)
    (transform_function : Value → Value) : Except PyError Value :=
  match value with
  | .vOrderedDict entries => do
    let items ← transformItemsF tf0 (entries.map Prod.snd)
    pure (Value.vList items)
  | .vList items => do
    let items2 ← transformItemsF tf0 items
    pure (Value.vList items2)
  | v => Except.ok (transform_function v)

/-- The local state of the first loop of transform: the attributes dict being
assembled, the done_attrs set, and the Python local variable named value,
which starts unbound (none) and is assigned only at line 276, in the branch
for an ordinary (non-Constant) attribute mapping. -/
structure Phase1State where
  attributes : List (String × Value)
  done_attrs : List SourceSpec
  value : Option Value

/-- rule_translator.py lines 246-280, the first loop of transform, processing
the rule list in table order.  Preparation entries contribute nothing and
continue.  Entries whose target is None continue before reaching the
done_attrs.add statement at line 280, as do Unsupported entries.  The
Unsupported branch at lines 266-270 tests the local variable named value: if
it was never assigned in this call the test raises UnboundLocalError, and
otherwise it sees the value read by the most recent ordinary entry; when that
stale value is not None, the argument of the _log call is an f-string that
evaluates input_obj.name (raising AttributeError when absent) and the call
itself then does nothing.  Constant entries write the literal constant.
Ordinary entries read the source attribute, run transform_value_common with
the transform function (defaulting to the identity at line 259), merge via
set_attr, record the attribute in done_attrs and leave the read value in the
local variable. -/
def phase1F (tf0 : Value → Except PyError Value) (input_obj : Value) :
    List MapEntry → Phase1State → Except PyError Phase1State
  | [], st => Except.ok st
  | MapEntry.preparation :: rest, st => phase1F tf0 input_obj rest st
  | MapEntry.mapping src tgt fn :: rest, st =>
    let transform_function := fn.getD (fun v => v)
    match tgt with
    | TargetSpec.ignore => phase1F tf0 input_obj rest st
    | TargetSpec.unsupported =>
      (match st.value with
       | none => Except.error (PyError.unboundLocalError "value")
       | some v =>
         if isNone v then
           phase1F tf0 input_obj rest st
         else do
           let _ ← getattr input_obj "name"
           phase1F tf0 input_obj rest st)
    | TargetSpec.attr output_attr =>
      match src with
      | SourceSpec.constant c => do
        let attrs2 ← set_attr st.attributes output_attr c
        phase1F tf0 input_obj rest ⟨attrs2, st.done_attrs ++ [src], st.value⟩
      | SourceSpec.attr input_attr => do
        let value ← getattr input_obj input_attr
        let tv ← transform_value_commonF tf0 value transform_function
        let attrs2 ← set_attr st.attributes output_attr tv
        phase1F tf0 input_obj rest
          ⟨attrs2, st.done_attrs ++ [SourceSpec.attr input_attr], some value⟩

/-- rule_translator.py lines 289-310, the second loop of transform: for every
attribute of the input object, in vars order, that is not in done_attrs, the
name is first translated by the global attribute map (possibly to None); when
the resulting name is a dataclass field of the target class the value is
transformed with the identity transform function and merged via set_attr;
otherwise the attribute is dropped (with a warning log that is a no-op). -/
def phase2F (tf0 : Value → Except PyError Value)
    (gmap : List (String × Option String)) (to_class : TargetClass) :
    List (String × Value) → List (String × Value) → List SourceSpec →
    Except PyError (List (String × Value))
  | [], attributes, _ => Except.ok attributes
  | (attr, value) :: rest, attributes, done_attrs =>
    if doneHas done_attrs attr then
      phase2F tf0 gmap to_class rest attributes done_attrs
    else
      match (if gmapMem gmap attr then gmapGet gmap attr else some attr) with
      | some attr2 =>
        if to_class.fields.contains attr2 then do
          let tv ← transform_value_commonF tf0 value (fun v => v)
          let attrs2 ← set_attr attributes attr2 tv
          phase2F tf0 gmap to_class rest attrs2 done_attrs
        else
          phase2F tf0 gmap to_class rest attributes done_attrs
      | none => phase2F tf0 gmap to_class rest attributes done_attrs

/-- The body of transform once a matching type_map entry has been found
(rule_translator.py lines 237-314): run the first loop from an empty
attributes dict, an empty done_attrs set and an unbound local value, then the
second loop over vars(input_obj), and construct the target object of the
declared target class from the assembled attribute set. -/
def buildFromRuleF (tf0 : Value → Except PyError Value)
    (gmap : List (String × Option String)) (input_obj : Value)
    (to_class : TargetClass) (mappings : List MapEntry) : Except PyError Value := do
  let st ← phase1F tf0 input_obj mappings ⟨[], [], none⟩
  let attrsIn ← objVars input_obj
  let finalAttrs ← phase2F tf0 gmap to_class attrsIn st.attributes st.done_attrs
  pure (Value.vObj to_class.name finalAttrs)

/-- The linear scan over type_map at line 225: the first pair whose from_class
component equals the class of the input object wins. -/
def findRule : List ((String × TargetClass) × List MapEntry) → String →
    Option (TargetClass × List MapEntry)
  | [], _ => none
  | entry :: rest, c =>
    if entry.1.1 == c then some (entry.1.2, entry.2) else findRule rest c

/-- The message of the TypeError raised at line 318 when no translation rule
matches (the interpolation of the object repr is elided). -/
def noRuleMsg (input_obj : Value) : String :=
  "No translation rule found for object of class " ++ pyClassName input_obj

/-- rule_translator.py lines 216-318, transform: builtin values are returned
unchanged; otherwise the first matching type_map entry drives the two
attribute loops and the construction of the target object, and when no entry
matches a TypeError is raised.  The fuel parameter bounds the recursion depth;
exhausting it corresponds to the Python RecursionError. -/
def transform (tbl : MappingTable) : Nat → Value → Except PyError Value
  | fuel, input_obj =>
    if is_builtin input_obj then Except.ok input_obj
    else
      match fuel with
      | 0 => Except.error PyError.recursionError
      | f + 1 =>
        match findRule tbl.type_map (pyClassName input_obj) with
        | none => Except.error (PyError.typeError (noRuleMsg input_obj))
        | some (to_class, mappings) =>
          buildFromRuleF (transform tbl f) tbl.global_attribute_map
            input_obj to_class mappings

/-- transform_value_common with the recursive transform instantiated at a
given table and fuel, as called from transform. -/
def transform_value_common (tbl : MappingTable) (fuel : Nat) (value : Value)
    (transform_function : Value → Value) : Except PyError Value :=
  transform_value_commonF (transform tbl fuel) value transform_function

/-- The first loop of transform at a given table and fuel. -/
def phase1 (tbl : MappingTable) (fuel : Nat) (input_obj : Value)
    (mappings : List MapEntry) (st : Phase1State) : Except PyError Phase1State :=
  phase1F (transform tbl fuel) input_obj mappings st

/-- The second loop of transform at a given table and fuel. -/
def phase2 (tbl : MappingTable) (fuel : Nat) (to_class : TargetClass)
    (attrsIn : List (String × Value)) (attributes : List (String × Value))
    (done_attrs : List SourceSpec) : Except PyError (List (String × Value)) :=
  phase2F (transform tbl fuel) tbl.global_attribute_map to_class attrsIn
    attributes done_attrs

/-- The rule body of transform at a given table and fuel. -/
def buildFromRule (tbl : MappingTable) (fuel : Nat) (input_obj : Value)
    (to_class : TargetClass) (mappings : List MapEntry) : Except PyError Value :=
  buildFromRuleF (transform tbl fuel) tbl.global_attribute_map input_obj
    to_class mappings

/-- The output list is the element-wise successful transform of the input
list: same length, order preserved, element i of the output the result of
transform on element i of the input. -/
def PointwiseTransformed (tbl : MappingTable) (fuel : Nat) :
    List Value → List Value → Prop
  | [], [] => True
  | x :: xs, y :: ys =>
    transform tbl fuel x = Except.ok y ∧ PointwiseTransformed tbl fuel xs ys
  | _, _ => False

/- Concrete fixtures used by the claim witnesses and counterexamples. -/

/-- An unused target class for a leading type_map entry with a different
source class. -/
def fixT0 : TargetClass := ⟨"Z0", []⟩

/-- Target class B1 with a single dataclass field x. -/
def fixT1 : TargetClass := ⟨"B1", ["x"]⟩

/-- Target class B2 with a single dataclass field x. -/
def fixT2 : TargetClass := ⟨"B2", ["x"]⟩

/-- The rule list of the first type_map entry for class A in fixDispatchTable. -/
def fixDispatchMs : List MapEntry := []

/-- A table whose type_map holds an entry for class Z followed by two entries
sharing the source class A with different target classes: the linear scan must
use the first of the two. -/
def fixDispatchTable : MappingTable :=
  ⟨[], [(("Z", fixT0), []), (("A", fixT1), fixDispatchMs), (("A", fixT2), [])]⟩

/-- A source object of class A with one attribute x. -/
def fixObjA : Value := .vObj "A" [("x", .vStr "v")]

/-- Target class for the ignored-attribute scenario: B has a dataclass field
with the same name x as the explicitly ignored source attribute. -/
def fixIgnoreB : TargetClass := ⟨"B", ["x"]⟩

/-- A table whose only rule for class A maps attribute x to the ignore value
None. -/
def fixIgnoreTable : MappingTable :=
  ⟨[], [(("A", fixIgnoreB), [MapEntry.mapping (SourceSpec.attr "x") TargetSpec.ignore none])]⟩

/-- Target class for the unsupported-attribute scenario, with fields name, y
and x. -/
def fixUnsupB : TargetClass := ⟨"B", ["name", "y", "x"]⟩

/-- A table whose rule for class A maps y ordinarily and then marks x as
Unsupported. -/
def fixUnsupTable : MappingTable :=
  ⟨[], [(("A", fixUnsupB),
    [MapEntry.mapping (SourceSpec.attr "y") (TargetSpec.attr "y") none,
     MapEntry.mapping (SourceSpec.attr "x") TargetSpec.unsupported none])]⟩

/-- A source object of class A whose attribute x, marked Unsupported in
fixUnsupTable, carries the non-default value secret. -/
def fixUnsupObj : Value :=
  .vObj "A" [("name", .vStr "n"), ("y", .vStr "w"), ("x", .vStr "secret")]

/-- Target classes for the shared-list scenario: B collects into the list
attribute structs, D is the target of the child class C. -/
def fixListB : TargetClass := ⟨"B", ["structs"]⟩

/-- Target class of the child objects in the shared-list scenario. -/
def fixListD : TargetClass := ⟨"D", ["name"]⟩

/-- A table with two mapping entries for the pair (A, B) that both target the
list attribute structs, plus the child rule (C, D). -/
def fixListTable : MappingTable :=
  ⟨[], [(("A", fixListB),
    [MapEntry.mapping (SourceSpec.attr "kids") (TargetSpec.attr "structs") none,
     MapEntry.mapping (SourceSpec.attr "extra") (TargetSpec.attr "structs") none]),
    (("C", fixListD), [])]⟩

/-- A source object of class A whose kids attribute is an OrderedDict with one
child of class C and whose extra attribute is a scalar: transforming it
triggers both structs entries of fixListTable. -/
def fixListObj : Value :=
  .vObj "A" [("kids", .vOrderedDict [("k1", .vObj "C" [("name", .vStr "c1")])]),
             ("extra", .vStr "s2")]

/-- A table whose only rule for class A starts with an Unsupported entry, so
the branch at line 268 reads the local variable named value before any
assignment to it. -/
def fixUnboundTable : MappingTable :=
  ⟨[], [(("A", fixT1),
    [MapEntry.mapping (SourceSpec.attr "x") TargetSpec.unsupported none])]⟩

/-- Target class for the stale-value scenario, with the single field y. -/
def fixStaleB : TargetClass := ⟨"B2", ["y"]⟩

/-- A table whose rule for class A maps y ordinarily and then marks x as
Unsupported, used to show the Unsupported branch tests the stale value of y
instead of the value of x. -/
def fixStaleTable : MappingTable :=
  ⟨[], [(("A", fixStaleB),
    [MapEntry.mapping (SourceSpec.attr "y") (TargetSpec.attr "y") none,
     MapEntry.mapping (SourceSpec.attr "x") TargetSpec.unsupported none])]⟩

/-- Class-A object without a name attribute whose y is None while the
unsupported attribute x carries a value. -/
def fixStaleObj1 : Value := .vObj "A" [("y", .vNone), ("x", .vStr "secret")]

/-- Class-A object without a name attribute whose y carries a value while the
unsupported attribute x is None. -/
def fixStaleObj2 : Value := .vObj "A" [("y", .vStr "w"), ("x", .vNone)]

end RuleTranslator

namespace FrancaToIfex

/-- The value attribute of a pyfranca enumerator: an IntegerValue node
carrying an integer, the Python None when no value was written, or a node of
any other type. -/
inductive FrancaEnumValue where
  | integerValue (value : Int)
  | pyNone
  | otherType (typeName : String)
deriving Repr, DecidableEq

/-- A pyfranca Enumerator node: a name and an optional value node. -/
structure FrancaEnumerator where
  name : String
  value : FrancaEnumValue
deriving Repr, DecidableEq

/-- An ifex_ast Option node as built by Enumerators_to_Options: a name and an
optional integer value. -/
structure IfexOption where
  name : String
  value : Option Int
deriving Repr, DecidableEq

/-- franca_to_ifex.py lines 95-101, Enumerator_Value: dereference an
IntegerValue to its integer, pass None through unchanged, and raise on any
other type. -/
def Enumerator_Value : FrancaEnumValue → Except String (Option Int)
  | .integerValue v => Except.ok (some v)
  | .pyNone => Except.ok none
  | .otherType t =>
    Except.error ("ERROR: BUG: Unexpected enumerator value type: " ++ t)

/-- The list comprehension of Enumerators_to_Options over the values of the
enumerators OrderedDict, in iteration order. -/
def optionsOf : List (String × FrancaEnumerator) → Except String (List IfexOption)
  | [] => Except.ok []
  | (_, item) :: rest => do
    let v ← Enumerator_Value item.value
    let os ← optionsOf rest
    pure (⟨item.name, v⟩ :: os)

/-- franca_to_ifex.py lines 103-111, Enumerators_to_Options: reject an empty
enumerators map, and otherwise build one Option per enumerator in iteration
order, with the value dereferenced by Enumerator_Value. -/
def Enumerators_to_Options (enumerators : List (String × FrancaEnumerator))
    (enumeration_name : String) : Except String (List IfexOption) :=
  if enumerators.length == 0 then
    Except.error ("ERROR: Enumeration named " ++ enumeration_name ++
      " must have at least one enumeration/option.")
  else optionsOf enumerators

/-- The enumerators of the scenario of claim C8: one explicit value 5 followed
by two enumerators with no value. -/
def fixEnumerators : List (String × FrancaEnumerator) :=
  [("e1", ⟨"e1", FrancaEnumValue.integerValue 5⟩),
   ("e2", ⟨"e2", FrancaEnumValue.pyNone⟩),
   ("e3", ⟨"e3", FrancaEnumValue.pyNone⟩)]

end FrancaToIfex

/-
Theorems.
-/

namespace RuleTranslator

/-- Bind of a successful Except computation. -/
@[simp] theorem ok_bind {α β : Type} (a : α) (f : α → Except PyError β) :
    (Except.ok a >>= f) = f a := rfl

/-- Bind of a failed Except computation propagates the error. -/
@[simp] theorem error_bind {α β : Type} (e : PyError) (f : α → Except PyError β) :
    ((Except.error e : Except PyError α) >>= f) = Except.error e := rfl

/-- pure in the Except monad is Except.ok. -/
@[simp] theorem pure_eq_ok {α : Type} (a : α) :
    (pure a : Except PyError α) = Except.ok a := rfl

/-- The linear scan of findRule returns the first entry whose source class
matches, whatever comes after it. -/
theorem findRule_first (c : String)
    (pre post : List ((String × TargetClass) × List MapEntry))
    (T : TargetClass) (ms : List MapEntry)
    (h : ∀ e ∈ pre, e.1.1 ≠ c) :
    findRule (pre ++ ((c, T), ms) :: post) c = some (T, ms) := by
  induction pre with
  | nil => simp [findRule]
  | cons e rest ih =>
    have hne : e.1.1 ≠ c := h e (List.mem_cons_self e rest)
    have hbeq : (e.1.1 == c) = false := beq_eq_false_iff_ne.mpr hne
    simp only [List.cons_append, findRule, hbeq, Bool.false_eq_true, if_false]
    exact ih fun e2 he2 => h e2 (List.mem_cons_of_mem e he2)

/-- PointwiseTransformed lists have equal lengths. -/
theorem pointwise_length (tbl : MappingTable) (fuel : Nat) :
    ∀ xs ys, PointwiseTransformed tbl fuel xs ys → ys.length = xs.length := by
  intro xs
  induction xs with
  | nil =>
    intro ys h
    cases ys with
    | nil => rfl
    | cons y ys => exact absurd h (by simp [PointwiseTransformed])
  | cons x xs ih =>
    intro ys h
    cases ys with
    | nil => exact absurd h (by simp [PointwiseTransformed])
    | cons y ys =>
      have h2 : PointwiseTransformed tbl fuel xs ys := by
        have := h
        simp only [PointwiseTransformed] at this
        exact this.2
      simp [ih ys h2]

/-- A successful run of the element-wise comprehension transforms the elements
pointwise, in order. -/
theorem transformItemsF_pointwise (tbl : MappingTable) (fuel : Nat) :
    ∀ xs items, transformItemsF (transform tbl fuel) xs = Except.ok items →
      PointwiseTransformed tbl fuel xs items := by
  intro xs
  induction xs with
  | nil =>
    intro items h
    simp only [transformItemsF] at h
    cases h
    simp [PointwiseTransformed]
  | cons x xs ih =>
    intro items h
    simp only [transformItemsF] at h
    cases h1 : transform tbl fuel x with
    | error e => rw [h1] at h; simp at h
    | ok t =>
      rw [h1] at h
      simp only [ok_bind] at h
      cases h2 : transformItemsF (transform tbl fuel) xs with
      | error e => rw [h2] at h; simp at h
      | ok ts =>
        rw [h2] at h
        simp only [ok_bind, pure_eq_ok, Except.ok.injEq] at h
        subst h
        exact ⟨h1, ih ts h2⟩

/-- A successful rule body always constructs an object of the declared target
class. -/
theorem buildFromRuleF_ok_class (tf0 : Value → Except PyError Value)
    (gmap : List (String × Option String)) (input_obj : Value)
    (to_class : TargetClass) (mappings : List MapEntry) (r : Value)
    (h : buildFromRuleF tf0 gmap input_obj to_class mappings = Except.ok r) :
    pyClassName r = to_class.name := by
  unfold buildFromRuleF at h
  cases h1 : phase1F tf0 input_obj mappings ⟨[], [], none⟩ with
  | error e => rw [h1] at h; simp at h
  | ok st =>
    rw [h1] at h
    simp only [ok_bind] at h
    cases h2 : objVars input_obj with
    | error e => rw [h2] at h; simp at h
    | ok attrsIn =>
      rw [h2] at h
      simp only [ok_bind] at h
      cases h3 : phase2F tf0 gmap to_class attrsIn st.attributes st.done_attrs with
      | error e => rw [h3] at h; simp at h
      | ok finalAttrs =>
        rw [h3] at h
        simp only [ok_bind, pure_eq_ok, Except.ok.injEq] at h
        subst h
        rfl

/-- Claim C1: for every input object whose class is the source-class component
of at least one type_map entry, transform uses the first such entry in the
iteration order of the table, its result is the rule body run for exactly that
entry (the two attribute loops followed by construction from the assembled
attribute set), and any returned node is an instance of exactly the declared
target class of that first entry. -/
theorem claim1_first_match_dispatch (tbl : MappingTable) (f : Nat)
    (input_obj : Value)
    (pre post : List ((String × TargetClass) × List MapEntry))
    (T : TargetClass) (ms : List MapEntry)
    (hb : is_builtin input_obj = false)
    (htm : tbl.type_map = pre ++ ((pyClassName input_obj, T), ms) :: post)
    (hpre : ∀ e ∈ pre, e.1.1 ≠ pyClassName input_obj) :
    findRule tbl.type_map (pyClassName input_obj) = some (T, ms) ∧
    transform tbl (f + 1) input_obj = buildFromRule tbl f input_obj T ms ∧
    ∀ r, transform tbl (f + 1) input_obj = Except.ok r → pyClassName r = T.name := by
  have hfind : findRule tbl.type_map (pyClassName input_obj) = some (T, ms) := by
    rw [htm]
    exact findRule_first _ _ _ _ _ hpre
  have heq : transform tbl (f + 1) input_obj = buildFromRule tbl f input_obj T ms := by
    simp only [transform]
    simp [hb, hfind, buildFromRule]
  refine ⟨hfind, heq, ?_⟩
  intro r hr
  rw [heq] at hr
  exact buildFromRuleF_ok_class _ _ _ _ _ _ hr

/-- Witness for claim C1: in a table holding a rule for class Z and then two
rules for class A with different target classes, transforming an A object uses
the first A rule and yields an instance of its target class B1. -/
theorem claim1_first_match_dispatch_witness :
    is_builtin fixObjA = false ∧
    findRule fixDispatchTable.type_map (pyClassName fixObjA) =
      some (fixT1, fixDispatchMs) ∧
    transform fixDispatchTable 3 fixObjA =
      buildFromRule fixDispatchTable 2 fixObjA fixT1 fixDispatchMs ∧
    pyClassName (Value.vObj "B1" [("x", Value.vStr "v")]) = fixT1.name := by
  have h := claim1_first_match_dispatch fixDispatchTable 2 fixObjA
    [(("Z", fixT0), [])] [(("A", fixT2), [])] fixT1 fixDispatchMs
    rfl rfl (by intro e he; simp at he; subst he; decide)
  exact ⟨rfl, h.1, h.2.1, h.2.2 (Value.vObj "B1" [("x", Value.vStr "v")]) rfl⟩

/-- Claim C2: transform_value_common maps an OrderedDict value to the list of
transformed values in iteration order with the keys discarded (one element per
entry), maps a list value to the element-wise transformed list of the same
length in the same order, and applies the transform function directly to every
other value, with no recursion into transform. -/
theorem claim2_transform_value_common (tbl : MappingTable) (fuel : Nat)
    (transform_function : Value → Value) :
    (∀ entries out,
      transform_value_common tbl fuel (Value.vOrderedDict entries)
          transform_function = Except.ok out →
      out.isList = true ∧
      out.listItems.length = entries.length ∧
      PointwiseTransformed tbl fuel (entries.map Prod.snd) out.listItems) ∧
    (∀ items out,
      transform_value_common tbl fuel (Value.vList items)
          transform_function = Except.ok out →
      out.isList = true ∧
      out.listItems.length = items.length ∧
      PointwiseTransformed tbl fuel items out.listItems) ∧
    (∀ v, v.isODict = false → v.isList = false →
      transform_value_common tbl fuel v transform_function =
        Except.ok (transform_function v)) := by
  refine ⟨?_, ?_, ?_⟩
  · intro entries out h
    simp only [transform_value_common, transform_value_commonF] at h
    cases h1 : transformItemsF (transform tbl fuel) (entries.map Prod.snd) with
    | error e => rw [h1] at h; simp at h
    | ok its =>
      rw [h1] at h
      simp only [ok_bind, pure_eq_ok, Except.ok.injEq] at h
      subst h
      have hp := transformItemsF_pointwise tbl fuel _ _ h1
      have hl := pointwise_length tbl fuel _ _ hp
      simp only [List.length_map] at hl
      exact ⟨rfl, by simpa [Value.listItems] using hl, hp⟩
  · intro items out h
    simp only [transform_value_common, transform_value_commonF] at h
    cases h1 : transformItemsF (transform tbl fuel) items with
    | error e => rw [h1] at h; simp at h
    | ok its =>
      rw [h1] at h
      simp only [ok_bind, pure_eq_ok, Except.ok.injEq] at h
      subst h
      have hp := transformItemsF_pointwise tbl fuel _ _ h1
      have hl := pointwise_length tbl fuel _ _ hp
      exact ⟨rfl, by simpa [Value.listItems] using hl, hp⟩
  · intro v h1 h2
    cases v <;> simp_all [transform_value_common, transform_value_commonF,
      Value.isODict, Value.isList]

/-- Witness for claim C2: a one-entry OrderedDict becomes the one-element list
of the transformed child, and a scalar int has the identity transform function
applied directly. -/
theorem claim2_transform_value_common_witness :
    (Value.vList [Value.vObj "D" [("name", Value.vStr "c1")]]).isList = true ∧
    (Value.vList [Value.vObj "D" [("name", Value.vStr "c1")]]).listItems.length =
      [("k1", Value.vObj "C" [("name", Value.vStr "c1")])].length ∧
    PointwiseTransformed fixListTable 2
      ([("k1", Value.vObj "C" [("name", Value.vStr "c1")])].map Prod.snd)
      (Value.vList [Value.vObj "D" [("name", Value.vStr "c1")]]).listItems ∧
    transform_value_common fixListTable 2 (Value.vInt 7) (fun v => v) =
      Except.ok (Value.vInt 7) := by
  have h := claim2_transform_value_common fixListTable 2 (fun v => v)
  have h1 := h.1 [("k1", Value.vObj "C" [("name", Value.vStr "c1")])]
    (Value.vList [Value.vObj "D" [("name", Value.vStr "c1")]]) rfl
  exact ⟨h1.1, h1.2.1, h1.2.2, h.2.2 (Value.vInt 7) rfl rfl⟩

/-- Claim C3: for every non-builtin input object whose class matches no
type_map entry, transform raises the no-translation-rule error (the TypeError
of line 318, named UnmappedTypeError by the design) and returns no node: the
whole call evaluates to the error, so an enclosing traversal propagates it
rather than producing a partial result. -/
theorem claim3_unmapped_type_error (tbl : MappingTable) (f : Nat)
    (input_obj : Value)
    (hb : is_builtin input_obj = false)
    (hnone : findRule tbl.type_map (pyClassName input_obj) = none) :
    transform tbl (f + 1) input_obj =
      Except.error (PyError.typeError (noRuleMsg input_obj)) := by
  simp only [transform]
  simp [hb, hnone]

/-- Witness for claim C3 at an object of the unmapped class Zed. -/
theorem claim3_unmapped_type_error_witness :
    is_builtin (Value.vObj "Zed" []) = false ∧
    findRule fixIgnoreTable.type_map (pyClassName (Value.vObj "Zed" [])) = none ∧
    transform fixIgnoreTable 1 (Value.vObj "Zed" []) =
      Except.error (PyError.typeError (noRuleMsg (Value.vObj "Zed" []))) :=
  ⟨rfl, rfl, claim3_unmapped_type_error fixIgnoreTable 0 (Value.vObj "Zed" []) rfl rfl⟩

/-- Claim C4 (code bug): set_attr assigns a fresh key directly and appends to
an existing list value, but on a scalar conflict it does not report a
diagnostic identifying the conflict and keep going: the statement at line 177
passes a single concatenated string literal to the two-parameter function _log
and therefore raises TypeError (and the messages that were meant to be logged
are non-f-strings handed to a no-op logger, so they would identify nothing). -/
theorem claim4_set_attr_scalar_conflict :
    set_attr [] "k" (Value.vInt 7) = Except.ok [("k", Value.vInt 7)] ∧
    set_attr [("k", Value.vList [Value.vInt 1])] "k" (Value.vInt 2) =
      Except.ok [("k", Value.vList [Value.vInt 1, Value.vInt 2])] ∧
    set_attr [("k", Value.vInt 1)] "k" (Value.vInt 2) =
      Except.error (PyError.typeError
        "_log() missing 1 required positional argument: string") :=
  ⟨rfl, rfl, rfl⟩

/-- Claim C5 (code bug): an entry mapped to the ignore value None contributes
nothing in the first loop, but the continue at line 264 runs before the
done_attrs.add at line 280, so the attribute is not recorded as handled and
the same-name auto-mapping of the second loop copies it anyway: the
explicitly ignored attribute x of fixObjA appears on the constructed target
node. -/
theorem claim5_ignored_attr_still_copied :
    transform fixIgnoreTable 2 fixObjA =
      Except.ok (Value.vObj "B" [("x", Value.vStr "v")]) := rfl

/-- Claim C6 (code bug): an Unsupported entry is likewise not recorded in
done_attrs, so the non-default source value of the unsupported attribute x is
copied onto the constructed target node by the second loop (and no
UnsupportedFeatureError is surfaced: the branch tests the stale local value of
the previous entry and its logger is a no-op). -/
theorem claim6_unsupported_value_copied :
    transform fixUnsupTable 2 fixUnsupObj =
      Except.ok (Value.vObj "B"
        [("y", Value.vStr "w"), ("name", Value.vStr "n"),
         ("x", Value.vStr "secret")]) := rfl

/-- Claim C7: two mapping entries of the same type pair that both target the
list attribute structs contribute two elements to one combined list, in the
order the entries appear in the table: the first entry assigns the transformed
one-child collection and the second appends its element via set_attr. -/
theorem claim7_shared_list_attribute :
    transform fixListTable 3 fixListObj =
      Except.ok (Value.vObj "B"
        [("structs", Value.vList
          [Value.vObj "D" [("name", Value.vStr "c1")], Value.vStr "s2"])]) := rfl

/-- Claim C9: when an Unsupported entry is evaluated before any ordinary entry
has assigned the local variable named value, transform fails with
UnboundLocalError; and when an earlier ordinary entry exists the branch tests
that stale value instead of the unsupported attribute: a stale None suppresses
the check although x carries the value secret, while a stale non-None value
triggers the check (whose log argument evaluates input_obj.name and raises
AttributeError on these nameless objects) although x itself is None. -/
theorem claim9_unsupported_reads_stale_local :
    transform fixUnboundTable 2 fixObjA =
      Except.error (PyError.unboundLocalError "value") ∧
    transform fixStaleTable 2 fixStaleObj1 =
      Except.ok (Value.vObj "B2" [("y", Value.vNone)]) ∧
    transform fixStaleTable 2 fixStaleObj2 =
      Except.error (PyError.attributeError "name") :=
  ⟨rfl, rfl, rfl⟩

/-- Claim C10: every value whose class comes from the builtins module,
including lists and dicts passed directly to transform, is returned unchanged
by the check at lines 218-220, before any rule lookup and with no per-element
recursion. -/
theorem claim10_builtin_passthrough (tbl : MappingTable) (fuel : Nat)
    (input_obj : Value) (hb : is_builtin input_obj = true) :
    transform tbl fuel input_obj = Except.ok input_obj := by
  cases fuel with
  | zero => simp only [transform]; simp [hb]
  | succ f => simp only [transform]; simp [hb]

/-- Witness for claim C10: a builtin list whose element is a mapped non-builtin
object is still returned as the very same list, untransformed. -/
theorem claim10_builtin_passthrough_witness :
    is_builtin (Value.vList [Value.vObj "A" [("x", Value.vStr "v")]]) = true ∧
    transform fixDispatchTable 0 (Value.vList [Value.vObj "A" [("x", Value.vStr "v")]]) =
      Except.ok (Value.vList [Value.vObj "A" [("x", Value.vStr "v")]]) :=
  ⟨rfl, claim10_builtin_passthrough fixDispatchTable 0
    (Value.vList [Value.vObj "A" [("x", Value.vStr "v")]]) rfl⟩

end RuleTranslator

namespace FrancaToIfex

/-- Counterexample to claim C8: the Enumeration with enumerators e1 = 5, e2
and e3 unvalued yields options whose unvalued entries carry None, not the
auto-numbered values 0 and 1 that the claim requires. -/
theorem claim8_counterexample :
    Enumerators_to_Options fixEnumerators "MyEnum" =
      Except.ok [⟨"e1", some 5⟩, ⟨"e2", none⟩, ⟨"e3", none⟩] ∧
    Enumerators_to_Options fixEnumerators "MyEnum" ≠
      Except.ok [⟨"e1", some 5⟩, ⟨"e2", some 0⟩, ⟨"e3", some 1⟩] := by
  refine ⟨rfl, ?_⟩
  intro h
  rw [show Enumerators_to_Options fixEnumerators "MyEnum" =
      Except.ok [⟨"e1", some 5⟩, ⟨"e2", none⟩, ⟨"e3", none⟩] from rfl] at h
  simp at h

/-- Claim C8 amended: the three enumerators yield target options in source
order with the explicit value 5 dereferenced and the two unvalued enumerators
given the value None: Enumerators_to_Options performs no auto-numbering and
keeps no counter. -/
theorem claim8_amended_no_autonumbering :
    Enumerators_to_Options fixEnumerators "MyEnum" =
      Except.ok [⟨"e1", some 5⟩, ⟨"e2", none⟩, ⟨"e3", none⟩] := rfl

end FrancaToIfex
